import Mathlib

/-!
Shallow embedding of the curvesim core under verification.

Numbers: Python integers are modelled as `ℤ`.  Python's floor division
`//` is `Int.fdiv` (rounds toward negative infinity, exactly as Python),
Python `%` with a positive divisor is `Int.emod`, and `x >> k` is
`Int.fdiv x (2 ^ k)`.  Python `sorted(xs, reverse=True)` is
`List.insertionSort (· ≥ ·)`: both are value-level descending sorts of a
list of integers, hence produce the same list.

Fallible code returns `Except Err`; the constructors of `Err` mirror the
individual raise/assert sites of the source, one constructor per site
(so distinct failure sites stay distinguishable even where Python reuses
one exception class).

Loops with a fixed iteration budget (`for _ in range(255)`) are embedded
as structural recursion on an explicit fuel argument.
-/

namespace Curvesim

/-- Error outcomes, one constructor per raise/assert site of the source. -/
inductive Err where
  /-- `CalculationError("Did not converge")` in `geometric_mean` and in
  both `newton_D` definitions. -/
  | didNotConverge
  /-- `CalculationError` raised unconditionally by `lp_price`. -/
  | lpPriceNotSupported
  /-- `CurvesimValueError("Unsafe value for A")` in the first (shadowed)
  `newton_D`. -/
  | unsafeValueA
  /-- `CurvesimValueError("Unsafe value for gamma")` in the first
  (shadowed) `newton_D`. -/
  | unsafeValueGamma
  /-- `CalculationError("Unsafe value for x[i]")` in the first (shadowed)
  `newton_D`. -/
  | unsafeXCalc
  /-- failure of `assert 10**17 <= D <= 10**15 * 10**18` in `get_p`. -/
  | assertDRange
  /-- failure of `assert 10**9 <= x[0] <= 10**15 * 10**18` in the first
  (shadowed) `newton_D`. -/
  | assertXBounds
  /-- failure of `assert frac >= 10**11` in the first (shadowed)
  `newton_D`. -/
  | assertFracLow
  /-- failure of `assert x[0] < (2**256 - 1) // 10**18 * N_COINS**N_COINS`
  in the second (effective) `newton_D`. -/
  | assertOutOfLimits
  /-- failure of `assert x[0] > 0` in the second (effective) `newton_D`. -/
  | assertEmptyPool
  /-- failure of `assert 10**16 <= frac <= 10**20` after convergence in
  the second (effective) `newton_D`. -/
  | assertUnsafeX
  /-- Python `IndexError` from indexing past the end of the balance list. -/
  | indexError
deriving DecidableEq

/-- `MIN_GAMMA = 10**10` (module constant). -/
def MIN_GAMMA : ℤ := 10 ^ 10

/-- `MAX_GAMMA = 2 * 10**16` (module constant). -/
def MAX_GAMMA : ℤ := 2 * 10 ^ 16

/-- `PRECISION = 10**18` (module constant). -/
def PRECISION : ℤ := 10 ^ 18

/-- `A_MULTIPLIER = 10000` (module constant). -/
def A_MULTIPLIER : ℤ := 10000

/-- Python `abs` on an integer. -/
def pyabs (a : ℤ) : ℤ := if a < 0 then -a else a

/-- Python `max` on two integers. -/
def pymax (a b : ℤ) : ℤ := if a ≤ b then b else a

/-- Python `sorted(xs, reverse=True)` on a list of integers. -/
def sortDesc (l : List ℤ) : List ℤ := List.insertionSort (· ≥ ·) l

/-- One iteration of the `geometric_mean` Newton loop:
`tmp = 10**18; for _x in x: tmp = tmp * _x // D` followed by
`D = D * ((n_coins - 1) * 10**18 + tmp) // (n_coins * 10**18)`. -/
def gmStep (n : ℤ) (x : List ℤ) (D : ℤ) : ℤ :=
  let tmp := x.foldl (fun t xi => (t * xi).fdiv D) (10 ^ 18)
  (D * ((n - 1) * 10 ^ 18 + tmp)).fdiv (n * 10 ^ 18)

/-- The `for _ in range(255)` loop of `geometric_mean`, with explicit
fuel; returns the updated `D` once
`diff <= 1 or diff * 10**18 < D` holds, and the convergence error when
the fuel runs out. -/
def gmLoop (n : ℤ) (x : List ℤ) : ℕ → ℤ → Except Err ℤ
  | 0, _ => .error .didNotConverge
  | fuel + 1, D =>
    let Dn := gmStep n x D
    let diff := pyabs (D - Dn)
    if diff ≤ 1 ∨ diff * 10 ^ 18 < Dn then .ok Dn
    else gmLoop n x fuel Dn

/-- `geometric_mean(unsorted_x, sort)` from `tricrypto_ng.py`:
`(x[0] * x[1] * ...) ** (1/N)` by Newton iteration, optionally
pre-sorting the input descending.  `x[0]` of an empty list is an
`IndexError` in Python. -/
def geometric_mean (unsorted_x : List ℤ) (sort : Bool) : Except Err ℤ :=
  let x := if sort then sortDesc unsorted_x else unsorted_x
  match x with
  | [] => .error .indexError
  | x0 :: rest => gmLoop ((x0 :: rest).length : ℤ) (x0 :: rest) 255 x0

/-- `lp_price(virtual_price, price_oracle)` from `tricrypto_ng.py`: the
body is a bare `raise CalculationError(...)` (the integer cube root based
formula is commented out in the source). -/
def lp_price (virtual_price : ℤ) (price_oracle : ℤ) : Except Err ℤ :=
  .error .lpPriceNotSupported

/-- `get_p(xp, D, A, gamma)` from `tricrypto_ng.py`: the two cross price
ratios `dx/dy`, `dx/dz` in `10**18` precision.  The source asserts the
`D` range first, then indexes `xp[0]`, `xp[1]`, `xp[2]` (an `IndexError`
for lists shorter than 3; longer lists are simply read at the first three
positions, with `N = len(xp)` entering the `K0` formula). -/
def get_p (xp : List ℤ) (D : ℤ) (A : ℤ) (gamma : ℤ) : Except Err (List ℤ) :=
  if ¬ (10 ^ 17 ≤ D ∧ D ≤ 10 ^ 15 * 10 ^ 18) then .error .assertDRange
  else
    match xp with
    | x0 :: x1 :: x2 :: tail =>
      let N : ℤ := ((x0 :: x1 :: x2 :: tail).length : ℤ)
      let K0 : ℤ :=
        ((((N ^ (x0 :: x1 :: x2 :: tail).length * x0 * x1).fdiv D) * x2).fdiv D
          * 10 ^ 36).fdiv D
      let GK0 : ℤ :=
        ((2 * K0 ^ 2).fdiv (10 ^ 36) * K0).fdiv (10 ^ 36)
          + (gamma + 10 ^ 18) ^ 2
          - ((K0 ^ 2).fdiv (10 ^ 36) * (2 * gamma + 3 * 10 ^ 18)).fdiv (10 ^ 18)
      let NNAG2 : ℤ := (A * gamma ^ 2).fdiv A_MULTIPLIER
      let denominator : ℤ := GK0 + ((NNAG2 * x0).fdiv D * K0).fdiv (10 ^ 36)
      .ok
        [((x0 * (GK0 + ((NNAG2 * x1).fdiv D * K0).fdiv (10 ^ 36))).fdiv x1
            * 10 ^ 18).fdiv denominator,
         ((x0 * (GK0 + ((NNAG2 * x2).fdiv D * K0).fdiv (10 ^ 36))).fdiv x2
            * 10 ^ 18).fdiv denominator]
    | _ => .error .indexError

/-- One halving step of `_snekmate_log_2`: if `value >> k` is nonzero,
shift `value` right by `k` and add `k` to `result`. -/
def log2Step (k : ℕ) (vr : ℤ × ℤ) : ℤ × ℤ :=
  if vr.1.fdiv (2 ^ k) ≠ 0 then (vr.1.fdiv (2 ^ k), vr.2 + (k : ℤ)) else vr

/-- `_snekmate_log_2(x, roundup)` from `tricrypto_ng.py`: integer log
base 2 by successive halving; returns 0 when given 0; `roundup` adds one
when `(1 << result) < x`. -/
def _snekmate_log_2 (x : ℤ) (roundup : Bool) : ℤ :=
  let a := log2Step 128 (x, 0)
  let b := log2Step 64 a
  let c := log2Step 32 b
  let d := log2Step 16 c
  let e := log2Step 8 d
  let f := log2Step 4 e
  let g := log2Step 2 f
  let result := if g.1.fdiv 2 ≠ 0 then g.2 + 1 else g.2
  if roundup ∧ (2 : ℤ) ^ result.toNat < x then result + 1 else result

/-- The branch constant `115792089237316195423570985008687907853269` of
`_cbrt`. -/
def CBRT_BOUND : ℤ := 115792089237316195423570985008687907853269

/-- One unrolled Newton step of `_cbrt`: `a = (2 * a + xx // (a * a)) // 3`. -/
def cbrtStep (xx a : ℤ) : ℤ := (2 * a + xx.fdiv (a * a)).fdiv 3

/-- `_cbrt(x)` from `tricrypto_ng.py`, modelled exactly as written: note
that the third input-scaling branch of the source reads
`xx = x * 10 * 36` (i.e. `360 * x`), not `x * 10**36`. -/
def _cbrt (x : ℤ) : ℤ :=
  let xx : ℤ :=
    if x ≥ CBRT_BOUND * 10 ^ 18 then x
    else if x ≥ CBRT_BOUND then x * 10 ^ 18
    else x * 10 * 36
  let log2x := _snekmate_log_2 xx false
  let remainder := log2x % 3
  let a0 := ((2 : ℤ) ^ (log2x.fdiv 3).toNat * 1260 ^ remainder.toNat).fdiv
    (1000 ^ remainder.toNat)
  let a7 := cbrtStep xx (cbrtStep xx (cbrtStep xx (cbrtStep xx
    (cbrtStep xx (cbrtStep xx (cbrtStep xx a0))))))
  if x ≥ CBRT_BOUND * 10 ^ 18 then a7 * 10 ^ 12
  else if x ≥ CBRT_BOUND then a7 * 10 ^ 6
  else a7

/-- One iteration of the second (effective) `newton_D`'s loop body, from
`K0 = ...` down to the update of `D`.  `N` is `N_COINS`, `S = sum(x)`,
and `x0, x1, x2` are the three largest balances (the source indexes the
sorted list at 0, 1, 2 unconditionally). -/
def newtonDStep (ANN gamma N S x0 x1 x2 D : ℤ) : ℤ :=
  let K0 := ((((10 ^ 18 * x0 * N).fdiv D * x1 * N).fdiv D) * x2 * N).fdiv D
  let g1k0 := pyabs (gamma + 10 ^ 18 - K0) + 1
  let mul1 := ((((10 ^ 18 * D).fdiv gamma * g1k0).fdiv gamma) * g1k0
    * A_MULTIPLIER).fdiv ANN
  let mul2 := (2 * 10 ^ 18 * N * K0).fdiv g1k0
  let neg_fprime := (S + (S * mul2).fdiv (10 ^ 18)) + (mul1 * N).fdiv K0
    - (mul2 * D).fdiv (10 ^ 18)
  let D_plus := (D * (neg_fprime + S)).fdiv neg_fprime
  let D_minus0 := (D * D).fdiv neg_fprime
  let D_minus :=
    if 10 ^ 18 > K0 then
      D_minus0 + ((D * (mul1.fdiv neg_fprime)).fdiv (10 ^ 18) * (10 ^ 18 - K0)).fdiv K0
    else
      D_minus0 - ((((D * mul1).fdiv neg_fprime).fdiv (10 ^ 18)) * (K0 - 10 ^ 18)).fdiv K0
  if D_plus > D_minus then D_plus - D_minus else (D_minus - D_plus).fdiv 2

/-- The post-convergence safety check of the second (effective)
`newton_D`: `assert 10**16 <= _x * 10**18 // D <= 10**20` for every
balance of the sorted list. -/
def fracInBounds (D : ℤ) (x : List ℤ) : Bool :=
  x.all fun xi =>
    decide (10 ^ 16 ≤ (xi * 10 ^ 18).fdiv D) && decide ((xi * 10 ^ 18).fdiv D ≤ 10 ^ 20)

/-- The `for i in range(255)` loop of the second (effective) `newton_D`,
with explicit fuel: when `diff * 10**14 < max(10**16, D)` the safety
check runs and the updated `D` is returned; exhausted fuel is the
convergence error. -/
def newtonDLoop (ANN gamma N S x0 x1 x2 : ℤ) (x : List ℤ) :
    ℕ → ℤ → Except Err ℤ
  | 0, _ => .error .didNotConverge
  | fuel + 1, D =>
    let Dn := newtonDStep ANN gamma N S x0 x1 x2 D
    let diff := pyabs (Dn - D)
    if diff * 10 ^ 14 < pymax (10 ^ 16) Dn then
      if fracInBounds Dn x then .ok Dn else .error .assertUnsafeX
    else newtonDLoop ANN gamma N S x0 x1 x2 x fuel Dn

/-- Body of the second (effective) `newton_D` after the descending sort,
for a nonempty sorted list `x0 :: rest`.  Follows the source order: the
two asserts on `x[0]`, then the initial `D` (`N_COINS *
geometric_mean(x, False)` when `K0_prev == 0`, otherwise a `_cbrt` seed
that indexes `x[1]` and `x[2]`), then the Newton loop, whose body indexes
`x[2]` unconditionally - an `IndexError` for lists shorter than 3. -/
def newtonDCore (ANN gamma : ℤ) (x0 : ℤ) (rest : List ℤ) (K0_prev : ℤ) :
    Except Err ℤ :=
  let x := x0 :: rest
  let N : ℕ := x.length
  if ¬ (x0 < ((2 : ℤ) ^ 256 - 1).fdiv (10 ^ 18) * (N : ℤ) ^ N) then
    .error .assertOutOfLimits
  else if ¬ (x0 > 0) then .error .assertEmptyPool
  else
    let S := x.sum
    let DInit : Except Err ℤ :=
      if K0_prev = 0 then
        match geometric_mean x false with
        | .error e => .error e
        | .ok g => .ok ((N : ℤ) * g)
      else
        match rest with
        | x1 :: x2 :: _ =>
          .ok
            (if S > 10 ^ 36 then
              _cbrt (((((x0 * x1).fdiv (10 ^ 36)) * x2).fdiv K0_prev) * 27 * 10 ^ 12)
            else if S > 10 ^ 24 then
              _cbrt (((((x0 * x1).fdiv (10 ^ 24)) * x2).fdiv K0_prev) * 27 * 10 ^ 6)
            else
              _cbrt (((((x0 * x1).fdiv (10 ^ 18)) * x2).fdiv K0_prev) * 27))
        | _ => .error .indexError
    match DInit with
    | .error e => .error e
    | .ok D0 =>
      match rest with
      | x1 :: x2 :: _ => newtonDLoop ANN gamma (N : ℤ) S x0 x1 x2 x 255 D0
      | _ => .error .indexError

/-- The second `newton_D(ANN, gamma, x_unsorted, K0_prev=0)` of
`tricrypto_ng.py` - the definition that is in effect at runtime, since
it shadows the earlier one of the same name.  Sorts the balances
descending and runs `newtonDCore`; `x[0]` of an empty list is an
`IndexError`. -/
def newton_D (ANN gamma : ℤ) (x_unsorted : List ℤ) (K0_prev : ℤ) :
    Except Err ℤ :=
  match sortDesc x_unsorted with
  | [] => .error .indexError
  | x0 :: rest => newtonDCore ANN gamma x0 rest K0_prev

/-- The `K0` accumulation of the first (shadowed) `newton_D` for
`n_coins != 2`: `K0 = 10**18; for _x in x: K0 = K0 * _x * n_coins // D`. -/
def newtonDFirstK0 (n D : ℤ) (x : List ℤ) : ℤ :=
  x.foldl (fun k xi => (k * xi * n).fdiv D) (10 ^ 18)

/-- One iteration of the first (shadowed) `newton_D`'s loop body.  `x1`
is `x[1]` (only read in the `n_coins == 2` branch of `K0`). -/
def newtonDFirstStep (ANN gamma n S : ℤ) (x : List ℤ) (x0 x1 D : ℤ) : ℤ :=
  let K0 :=
    if n = 2 then (((10 ^ 18 * n ^ 2) * x0).fdiv D * x1).fdiv D
    else newtonDFirstK0 n D x
  let g1k0 := pyabs (gamma + 10 ^ 18 - K0) + 1
  let mul1 := ((((10 ^ 18 * D).fdiv gamma * g1k0).fdiv gamma) * g1k0
    * A_MULTIPLIER).fdiv ANN
  let mul2 := ((2 * 10 ^ 18) * n * K0).fdiv g1k0
  let neg_fprime := (S + (S * mul2).fdiv (10 ^ 18)) + (mul1 * n).fdiv K0
    - (mul2 * D).fdiv (10 ^ 18)
  let D_plus := (D * (neg_fprime + S)).fdiv neg_fprime
  let D_minus0 := (D * D).fdiv neg_fprime
  let D_minus :=
    if 10 ^ 18 > K0 then
      D_minus0 + ((D * (mul1.fdiv neg_fprime)).fdiv (10 ^ 18) * (10 ^ 18 - K0)).fdiv K0
    else
      D_minus0 - ((D * (mul1.fdiv neg_fprime)).fdiv (10 ^ 18) * (K0 - 10 ^ 18)).fdiv K0
  if D_plus > D_minus then D_plus - D_minus else (D_minus - D_plus).fdiv 2

/-- The post-convergence check of the first (shadowed) `newton_D`:
`frac < 10**16 or frac > 10**20` raises
`CalculationError("Unsafe value for x[i]")`. -/
def fracInBoundsFirst (D : ℤ) (x : List ℤ) : Bool :=
  x.all fun xi =>
    decide (10 ^ 16 ≤ (xi * 10 ^ 18).fdiv D) && decide ((xi * 10 ^ 18).fdiv D ≤ 10 ^ 20)

/-- The `for _ in range(255)` loop of the first (shadowed) `newton_D`,
with explicit fuel. -/
def newtonDFirstLoop (ANN gamma n S : ℤ) (x : List ℤ) (x0 x1 : ℤ) :
    ℕ → ℤ → Except Err ℤ
  | 0, _ => .error .didNotConverge
  | fuel + 1, D =>
    let Dn := newtonDFirstStep ANN gamma n S x x0 x1 D
    let diff := pyabs (Dn - D)
    if diff * 10 ^ 14 < pymax (10 ^ 16) Dn then
      if fracInBoundsFirst Dn x then .ok Dn else .error .unsafeXCalc
    else newtonDFirstLoop ANN gamma n S x x0 x1 fuel Dn

/-- The first `newton_D(ANN, gamma, x_unsorted)` of `tricrypto_ng.py`
(lines 121-199).  In Python this definition is dead code: the second
definition of the same name, later in the module, replaces it.  It is
embedded under the name `newton_D_first` because Lean does not allow two
definitions of one name.  Unlike the effective definition it checks the
`ANN` and `gamma` ranges, the `x[0]` magnitude bounds and the
balance-to-largest-balance ratio lower bound, and handles `n_coins == 2`. -/
def newton_D_first (ANN gamma : ℤ) (x_unsorted : List ℤ) : Except Err ℤ :=
  let n : ℕ := x_unsorted.length
  let min_A := ((n : ℤ) ^ n * A_MULTIPLIER).fdiv 10
  let max_A := (n : ℤ) ^ n * A_MULTIPLIER * 100000
  if ¬ (min_A ≤ ANN ∧ ANN ≤ max_A) then .error .unsafeValueA
  else if ¬ (MIN_GAMMA ≤ gamma ∧ gamma ≤ MAX_GAMMA) then .error .unsafeValueGamma
  else
    match sortDesc x_unsorted with
    | [] => .error .indexError
    | x0 :: rest =>
      if ¬ (10 ^ 9 ≤ x0 ∧ x0 ≤ 10 ^ 15 * 10 ^ 18) then .error .assertXBounds
      else if ¬ (rest.all fun xi => decide ((10 : ℤ) ^ 11 ≤ (xi * 10 ^ 18).fdiv x0)) = true
      then .error .assertFracLow
      else
        match geometric_mean (x0 :: rest) false with
        | .error e => .error e
        | .ok g =>
          newtonDFirstLoop ANN gamma (n : ℤ) (x0 :: rest).sum (x0 :: rest) x0
            (rest.headD 0) 255 ((n : ℤ) * g)

/-- A stableswap pool as the `pool_mixins.py` setters see it: the token
count `n`, the per-token `rates` and the mutable `balances`. -/
structure StableswapPool where
  n : ℤ
  rates : List ℤ
  balances : List ℤ

/-- A stableswap meta-pool as the `pool_mixins.py` setters see it: its
own rates/balances plus the nested base pool. -/
structure MetaPool where
  basepool : StableswapPool
  rates : List ℤ
  balances : List ℤ

/-- `stableswap_D_to_balances(pool, D)` from `pool_mixins.py`:
`pool.balances = [D // n * 10**18 // r for r in rates]`. -/
def stableswap_D_to_balances (pool : StableswapPool) (D : ℤ) : StableswapPool :=
  { pool with balances := pool.rates.map fun r => (D.fdiv pool.n * 10 ^ 18).fdiv r }

/-- `stableswap_D_base_to_balances(pool, D_base)` from `pool_mixins.py`:
the same distribution formula applied to the nested base pool. -/
def stableswap_D_base_to_balances (pool : MetaPool) (D_base : ℤ) : MetaPool :=
  { pool with
    basepool :=
      { pool.basepool with
        balances := pool.basepool.rates.map fun r =>
          (D_base.fdiv pool.basepool.n * 10 ^ 18).fdiv r } }

/-- The setter functions of `pool_mixins.py`, as tags.  Every
module-level setter function is listed, including `set_cryptoswap_gamma`,
which exists in the module but is not registered in any `setters` table. -/
inductive SetterFn where
  | stableswapDToBalances
  | stableswapDBaseToBalances
  | cryptoswapDToBalances
  | setCryptoswapA
  | setCryptoswapGamma
deriving DecidableEq

/-- The `setters` property of `CurvePoolMixin`:
`{"D": stableswap_D_to_balances}`. -/
def curvePoolSetters : List (String × SetterFn) :=
  [("D", .stableswapDToBalances)]

/-- The `setters` property of `CurveMetaPoolMixin`:
`{"D": stableswap_D_to_balances, "D_base": stableswap_D_base_to_balances}`. -/
def curveMetaPoolSetters : List (String × SetterFn) :=
  [("D", .stableswapDToBalances), ("D_base", .stableswapDBaseToBalances)]

/-- The `setters` property of `CurveCryptoPoolMixin`:
`{"D": cryptoswap_D_to_balances, "A": set_cryptoswap_A}`. -/
def curveCryptoPoolSetters : List (String × SetterFn) :=
  [("D", .cryptoswapDToBalances), ("A", .setCryptoswapA)]

/-- The virtual balances of the `mainnet_3pool_state` fixture of
`src/test/conftest.py`: `[b * p // 10**18 for b, p in zip(balances, p)]`
with `p = [10**18, 10**30, 10**30]`. -/
def mainnet3poolVirtualBalances : List ℤ :=
  [295949605740077243186725223, 284320067518878 * 10 ^ 12, 288200854907854 * 10 ^ 12]

set_option maxRecDepth 100000

/-- Descending sort is canonical: permuted inputs sort to the same list. -/
theorem sortDesc_eq_of_perm {xs ys : List ℤ} (h : xs.Perm ys) :
    sortDesc xs = sortDesc ys :=
  List.eq_of_perm_of_sorted
    ((List.perm_insertionSort _ xs).trans (h.trans (List.perm_insertionSort _ ys).symm))
    (List.sorted_insertionSort _ xs) (List.sorted_insertionSort _ ys)

/-- Membership is preserved by the descending sort. -/
theorem mem_sortDesc {xi : ℤ} {xs : List ℤ} : xi ∈ sortDesc xs ↔ xi ∈ xs :=
  (List.perm_insertionSort _ xs).mem_iff

/-- The only error the `geometric_mean` loop can produce is the
convergence error. -/
theorem gmLoop_error_shape (n : ℤ) (x : List ℤ) :
    ∀ (fuel : ℕ) (D : ℤ) (e : Err),
      gmLoop n x fuel D = .error e → e = .didNotConverge := by
  intro fuel
  induction fuel with
  | zero =>
    intro D e h
    simpa [gmLoop] using h.symm
  | succ fuel ih =>
    intro D e h
    rw [gmLoop] at h
    split at h
    · exact absurd h (by simp)
    · exact ih _ _ h

/-- The only errors `geometric_mean` can produce are the convergence
error and the empty-list index error. -/
theorem geometric_mean_error_shape (xs : List ℤ) (b : Bool) (e : Err)
    (h : geometric_mean xs b = .error e) :
    e = .didNotConverge ∨ e = .indexError := by
  simp only [geometric_mean] at h
  split at h
  · exact .inr (by simpa using h.symm)
  · exact .inl (gmLoop_error_shape _ _ _ _ _ h)

/-- Every run of the effective `newton_D`'s loop ends in the convergence
error, the unsafe-state assertion, or a value that passes the
post-convergence balance-ratio check. -/
theorem newtonDLoop_shape (ANN gamma N S x0 x1 x2 : ℤ) (x : List ℤ) :
    ∀ (fuel : ℕ) (D : ℤ),
      newtonDLoop ANN gamma N S x0 x1 x2 x fuel D = .error .didNotConverge ∨
      newtonDLoop ANN gamma N S x0 x1 x2 x fuel D = .error .assertUnsafeX ∨
      ∃ d, newtonDLoop ANN gamma N S x0 x1 x2 x fuel D = .ok d ∧
        fracInBounds d x = true := by
  intro fuel
  induction fuel with
  | zero => exact fun D => .inl rfl
  | succ fuel ih =>
    intro D
    rw [newtonDLoop]
    split
    · split
      · exact .inr (.inr ⟨_, rfl, by assumption⟩)
      · exact .inr (.inl rfl)
    · exact ih _

/-- Reassociation of `newtonDLoop_shape` into the error-list-or-checked-value
form used for the whole `newton_D` body. -/
theorem newtonDLoop_to_shape (ANN gamma N S x0 x1 x2 : ℤ) (x : List ℤ)
    (fuel : ℕ) (D : ℤ) :
    (∃ e, newtonDLoop ANN gamma N S x0 x1 x2 x fuel D = .error e ∧
      (e = .assertOutOfLimits ∨ e = .assertEmptyPool ∨ e = .indexError ∨
        e = .didNotConverge ∨ e = .assertUnsafeX)) ∨
    ∃ d, newtonDLoop ANN gamma N S x0 x1 x2 x fuel D = .ok d ∧
      fracInBounds d x = true := by
  rcases newtonDLoop_shape ANN gamma N S x0 x1 x2 x fuel D with h | h | ⟨d, hd, hf⟩
  · exact .inl ⟨_, h, by simp⟩
  · exact .inl ⟨_, h, by simp⟩
  · exact .inr ⟨d, hd, hf⟩

/-- Outcome analysis for the effective `newton_D` body: the result is one
of the errors the body can actually raise, or a value that passed the
balance-ratio check. -/
theorem newtonDCore_shape (ANN gamma x0 : ℤ) (rest : List ℤ) (K0_prev : ℤ) :
    (∃ e, newtonDCore ANN gamma x0 rest K0_prev = .error e ∧
      (e = .assertOutOfLimits ∨ e = .assertEmptyPool ∨ e = .indexError ∨
        e = .didNotConverge ∨ e = .assertUnsafeX)) ∨
    ∃ d, newtonDCore ANN gamma x0 rest K0_prev = .ok d ∧
      fracInBounds d (x0 :: rest) = true := by
  simp only [newtonDCore]
  split
  · exact .inl ⟨_, rfl, by simp⟩
  split
  · exact .inl ⟨_, rfl, by simp⟩
  split
  · -- the initial-D computation chose the error arm: classify the error
    rename_i e heq
    refine .inl ⟨e, rfl, ?_⟩
    split at heq
    · -- K0_prev = 0: the error came out of the geometric mean
      split at heq
      · rename_i e2 hgm
        have he2 : e2 = e := by simpa using heq
        rcases geometric_mean_error_shape _ _ _ hgm with h | h <;>
          simp [← he2, h]
      · exact absurd heq (by simp)
    · -- K0_prev != 0: either the cbrt seed succeeded (no error) or
      -- the list was too short for the x[1]/x[2] indexing
      split at heq
      · exact absurd heq (by simp)
      · have : Err.indexError = e := by simpa using heq
        simp [← this]
  · -- the initial-D computation succeeded: split on the list shape
    split
    · exact newtonDLoop_to_shape _ _ _ _ _ _ _ _ _ _
    · exact .inl ⟨_, rfl, by simp⟩

/-- C1 (amended part). The effective `newton_D` performs no parameter
precondition checks: no call produces the unsafe-parameter errors (the
`CurvesimValueError`s that only the shadowed first definition raises),
and whenever it returns an invariant `d`, every input balance `xi`
satisfies the post-convergence safety bounds
`10^16 <= xi * 10^18 // d <= 10^20`; the remaining failure modes are the
`x[0]` assertions, an index error, the convergence error and the
unsafe-state assertion. -/
theorem newton_D_taxonomy (ANN gamma : ℤ) (xs : List ℤ) (K0_prev : ℤ) :
    newton_D ANN gamma xs K0_prev ≠ .error .unsafeValueA ∧
    newton_D ANN gamma xs K0_prev ≠ .error .unsafeValueGamma ∧
    ∀ d : ℤ, newton_D ANN gamma xs K0_prev = .ok d →
      ∀ xi ∈ xs, 10 ^ 16 ≤ (xi * 10 ^ 18).fdiv d ∧ (xi * 10 ^ 18).fdiv d ≤ 10 ^ 20 := by
  rcases hs : sortDesc xs with _ | ⟨x0, rest⟩
  · have hnd : newton_D ANN gamma xs K0_prev = .error .indexError := by
      simp [newton_D, hs]
    refine ⟨by simp [hnd], by simp [hnd], fun d hd => ?_⟩
    rw [hnd] at hd
    exact absurd hd (by simp)
  · have hnd : newton_D ANN gamma xs K0_prev = newtonDCore ANN gamma x0 rest K0_prev := by
      simp [newton_D, hs]
    rcases newtonDCore_shape ANN gamma x0 rest K0_prev with ⟨e, he, hcase⟩ | ⟨d0, hd0, hfrac⟩
    · rw [hnd, he]
      refine ⟨?_, ?_, fun d hd => absurd hd (by simp)⟩ <;>
        rcases hcase with h | h | h | h | h <;> simp [h]
    · rw [hnd, hd0]
      refine ⟨by simp, by simp, fun d hd xi hxi => ?_⟩
      have hdd : d0 = d := by simpa using hd
      subst hdd
      have hmem : xi ∈ x0 :: rest := by
        rw [← hs]
        exact mem_sortDesc.mpr hxi
      simp only [fracInBounds, List.all_eq_true, Bool.and_eq_true,
        decide_eq_true_eq] at hfrac
      exact hfrac xi hmem

/-- C1 (counterexample). A call with `gamma` strictly above `MAX_GAMMA`
(so outside the documented safe range) does not raise the
unsafe-parameter error: it converges and returns an invariant value. -/
theorem newton_D_taxonomy_cex :
    ¬ ((10 : ℤ) ^ 17 ≤ MAX_GAMMA) ∧
    newton_D 2700000 (10 ^ 17) [10 ^ 24, 10 ^ 24, 10 ^ 24] 0 = .ok (3 * 10 ^ 24) :=
  ⟨by decide, rfl⟩

/-- C1 (witness). The taxonomy theorem applied at a concrete converging
call: the returned invariant puts the balance `10^24` inside the safety
bounds. -/
theorem newton_D_taxonomy_witness :
    10 ^ 16 ≤ ((10 : ℤ) ^ 24 * 10 ^ 18).fdiv (3 * 10 ^ 24) ∧
    ((10 : ℤ) ^ 24 * 10 ^ 18).fdiv (3 * 10 ^ 24) ≤ 10 ^ 20 :=
  (newton_D_taxonomy 2700000 (10 ^ 15) [10 ^ 24, 10 ^ 24, 10 ^ 24] 0).2.2
    (3 * 10 ^ 24)
    (show newton_D 2700000 (10 ^ 15) [10 ^ 24, 10 ^ 24, 10 ^ 24] 0
        = .ok (3 * 10 ^ 24) from rfl)
    (10 ^ 24) (by simp)

/-- C2 (amended part). The effective `newton_D` never returns a value on
a 2-element balance list: its loop body (and its `_cbrt` seed path)
unconditionally index the third balance, so every 2-asset call fails. -/
theorem newton_D_two_assets_no_ok (ANN gamma : ℤ) (xs : List ℤ) (K0_prev : ℤ)
    (h2 : xs.length = 2) (d : ℤ) : newton_D ANN gamma xs K0_prev ≠ .ok d := by
  have hlen : (sortDesc xs).length = 2 := by
    simpa [sortDesc, List.length_insertionSort] using h2
  rcases List.length_eq_two.mp hlen with ⟨a, b, hab⟩
  have hnd : newton_D ANN gamma xs K0_prev = newtonDCore ANN gamma a [b] K0_prev := by
    simp [newton_D, hab]
  rw [hnd]
  intro h
  simp only [newtonDCore] at h
  split at h
  · simp at h
  split at h
  · simp at h
  split at h
  · simp at h
  · simp at h

/-- C2 (counterexample). A 2-element balance list satisfying every
documented precondition (for two coins `ANN` must lie in
`[4000, 4 * 10^9]`, `gamma` in `[10^10, 2 * 10^16]`, and the two equal
balances have ratio `10^18`): the effective `newton_D` raises an
`IndexError` instead of returning an invariant. -/
theorem newton_D_two_assets_cex :
    (((2 : ℤ) ^ 2 * A_MULTIPLIER).fdiv 10 ≤ 400000 ∧
      (400000 : ℤ) ≤ 2 ^ 2 * A_MULTIPLIER * 100000 ∧
      MIN_GAMMA ≤ (10 : ℤ) ^ 15 ∧ (10 : ℤ) ^ 15 ≤ MAX_GAMMA) ∧
    newton_D 400000 (10 ^ 15) [10 ^ 24, 10 ^ 24] 0 = .error .indexError :=
  ⟨by decide, rfl⟩

/-- C2 (witness). The no-ok theorem applied at a concrete 2-element
call. -/
theorem newton_D_two_assets_no_ok_witness :
    newton_D 400000 (10 ^ 15) [10 ^ 24, 10 ^ 24] 0 ≠ .ok 0 :=
  newton_D_two_assets_no_ok 400000 (10 ^ 15) [10 ^ 24, 10 ^ 24] 0 (by decide) 0

/-- C3 (amended part). With the sort flag set, `geometric_mean` is
permutation-invariant: permuted inputs are first sorted to the same
descending list, so the whole computation coincides. -/
theorem geometric_mean_perm_invariant_sorted (xs ys : List ℤ) (h : xs.Perm ys) :
    geometric_mean xs true = geometric_mean ys true := by
  simp only [geometric_mean, if_pos]
  rw [sortDesc_eq_of_perm h]

/-- C3 (counterexample). With the sort flag cleared, `geometric_mean` is
order-dependent: the two orderings of the pair `{10^18, 5 * 10^18}` give
results that differ by one unit. -/
theorem geometric_mean_perm_cex :
    List.Perm [(10 : ℤ) ^ 18, 5 * 10 ^ 18] [5 * 10 ^ 18, 10 ^ 18] ∧
    geometric_mean [(10 : ℤ) ^ 18, 5 * 10 ^ 18] false = .ok 2236067977499789694 ∧
    geometric_mean [5 * 10 ^ 18, (10 : ℤ) ^ 18] false = .ok 2236067977499789695 :=
  ⟨List.Perm.swap _ _ _, rfl, rfl⟩

/-- C3 (witness). The sorted-flag invariance applied to a concrete
transposition. -/
theorem geometric_mean_perm_invariant_sorted_witness :
    geometric_mean [(1 : ℤ), 2] true = geometric_mean [2, (1 : ℤ)] true :=
  geometric_mean_perm_invariant_sorted _ _ (List.Perm.swap 2 1 [])

/-- C4. Evaluation of `_cbrt` at the failing input `a = 2` (so
`x = a^3 = 8`): the third input-scaling branch multiplies by `10 * 36`
instead of `10^36`, so the result is `14` (the cube root of `2880`),
nowhere within one unit of the correctly scaled
`2 * 10^12 = cbrt(8 * 10^36)`. -/
theorem cbrt_small_branch_bug :
    _cbrt 8 = 14 ∧ ¬ (pyabs (_cbrt 8 - 2 * 10 ^ 12) ≤ 1) :=
  ⟨rfl, by decide⟩

/-- C5. Integer log base 2 is exact on every power of two up to `2^255`
and returns 0 at 0 under both rounding modes. -/
theorem snekmate_log_2_powers_and_zero :
    (∀ k : ℕ, k ≤ 255 → _snekmate_log_2 (2 ^ k) false = (k : ℤ)) ∧
    _snekmate_log_2 0 false = 0 ∧ _snekmate_log_2 0 true = 0 :=
  ⟨by decide, by decide, by decide⟩

/-- C5 (witness). The power-of-two law at `k = 17`. -/
theorem snekmate_log_2_powers_witness :
    _snekmate_log_2 (2 ^ 17) false = (17 : ℤ) :=
  snekmate_log_2_powers_and_zero.1 17 (by decide)

/-- C6 (amended part). `get_p` fails for balance lists shorter than 3
(either the `D`-range assertion or an `IndexError`); for any list of at
least 3 balances with `D` in the accepted range it returns exactly two
price ratios. -/
theorem get_p_arity (xp : List ℤ) (D A gamma : ℤ) :
    (xp.length < 3 →
      get_p xp D A gamma = .error .assertDRange ∨
      get_p xp D A gamma = .error .indexError) ∧
    (10 ^ 17 ≤ D → D ≤ 10 ^ 15 * 10 ^ 18 → 3 ≤ xp.length →
      ∃ p_xy p_xz, get_p xp D A gamma = .ok [p_xy, p_xz]) := by
  constructor
  · intro hlt
    unfold get_p
    split
    · exact .inl rfl
    · rcases xp with _ | ⟨a, _ | ⟨b, _ | ⟨c, t⟩⟩⟩
      · simp
      · simp
      · simp
      · simp only [List.length_cons] at hlt
        omega
  · intro h1 h2 h3
    rcases xp with _ | ⟨a, _ | ⟨b, _ | ⟨c, t⟩⟩⟩ <;> simp_all
    have hD : ¬ ¬ (10 ^ 17 ≤ D ∧ D ≤ 10 ^ 15 * 10 ^ 18) := fun hc => hc ⟨h1, h2⟩
    rw [get_p, if_neg hD]
    exact ⟨_, _, rfl⟩

/-- C6 (counterexample). A 4-element balance list (length not 3, `D` in
range) on which `get_p` returns a result instead of failing. -/
theorem get_p_arity_cex :
    ([(10 : ℤ) ^ 24, 10 ^ 24, 10 ^ 24, 10 ^ 24].length ≠ 3) ∧
    get_p [(10 : ℤ) ^ 24, 10 ^ 24, 10 ^ 24, 10 ^ 24] (4 * 10 ^ 24) 2700000 (10 ^ 15)
      = .ok [10 ^ 18, 10 ^ 18] :=
  ⟨by decide, rfl⟩

/-- C6 (witness). The arity theorem applied at a concrete 3-element call
with `D` in range. -/
theorem get_p_arity_witness :
    ∃ p_xy p_xz,
      get_p [(10 : ℤ) ^ 24, 10 ^ 24, 10 ^ 24] (3 * 10 ^ 24) 2700000 (10 ^ 15)
        = .ok [p_xy, p_xz] :=
  (get_p_arity [(10 : ℤ) ^ 24, 10 ^ 24, 10 ^ 24] (3 * 10 ^ 24) 2700000 (10 ^ 15)).2
    (by decide) (by decide) (by decide)

/-- C7. Setting the invariant target distributes it across tokens via the
rates: the stableswap `D` setter writes `D // n * 10^18 // rates[i]` into
`balances[i]` for every index, and the meta-pool `D_base` setter applies
the same formula to the nested base pool's balances. -/
theorem stableswap_D_setters_distribute :
    (∀ (pool : StableswapPool) (D : ℤ) (i : ℕ) (r : ℤ),
      pool.rates[i]? = some r →
      (stableswap_D_to_balances pool D).balances[i]?
        = some ((D.fdiv pool.n * 10 ^ 18).fdiv r)) ∧
    (∀ (pool : MetaPool) (D_base : ℤ) (i : ℕ) (r : ℤ),
      pool.basepool.rates[i]? = some r →
      (stableswap_D_base_to_balances pool D_base).basepool.balances[i]?
        = some ((D_base.fdiv pool.basepool.n * 10 ^ 18).fdiv r)) := by
  constructor
  · intro pool D i r hr
    simp [stableswap_D_to_balances, List.getElem?_map, hr]
  · intro pool D_base i r hr
    simp [stableswap_D_base_to_balances, List.getElem?_map, hr]

/-- C7 (witness). The distribution law at a concrete two-token pool and a
concrete meta-pool. -/
theorem stableswap_D_setters_distribute_witness :
    (stableswap_D_to_balances ⟨2, [10 ^ 18, 10 ^ 30], [0, 0]⟩ (7 * 10 ^ 18)).balances[0]?
      = some (((7 * 10 ^ 18 : ℤ).fdiv 2 * 10 ^ 18).fdiv (10 ^ 18)) :=
  stableswap_D_setters_distribute.1 ⟨2, [10 ^ 18, 10 ^ 30], [0, 0]⟩ (7 * 10 ^ 18) 0
    (10 ^ 18) rfl

/-- C8. The registered sweep-setter tables are exactly: stableswap pools
support only `D`; meta-pools exactly `D` and `D_base`; cryptoswap pools
exactly `D` and `A`; any other axis name (in particular `gamma`) has no
registered setter for any pool family. -/
theorem setters_tables_exact :
    curvePoolSetters.map Prod.fst = ["D"] ∧
    curveMetaPoolSetters.map Prod.fst = ["D", "D_base"] ∧
    curveCryptoPoolSetters.map Prod.fst = ["D", "A"] ∧
    ∀ s : String, s ≠ "D" → s ≠ "D_base" → s ≠ "A" →
      curvePoolSetters.lookup s = none ∧
      curveMetaPoolSetters.lookup s = none ∧
      curveCryptoPoolSetters.lookup s = none := by
  refine ⟨rfl, rfl, rfl, fun s h1 h2 h3 => ?_⟩
  have b1 : (s == "D") = false := beq_eq_false_iff_ne.mpr h1
  have b2 : (s == "D_base") = false := beq_eq_false_iff_ne.mpr h2
  have b3 : (s == "A") = false := beq_eq_false_iff_ne.mpr h3
  simp [curvePoolSetters, curveMetaPoolSetters, curveCryptoPoolSetters,
    List.lookup, b1, b2, b3]

/-- C8 (witness). The tables at the axis name `gamma`: no family has a
setter for it. -/
theorem setters_tables_exact_witness :
    curvePoolSetters.lookup "gamma" = none ∧
    curveMetaPoolSetters.lookup "gamma" = none ∧
    curveCryptoPoolSetters.lookup "gamma" = none :=
  setters_tables_exact.2.2.2 "gamma" (by decide) (by decide) (by decide)

/-- C9 (amended part). At the documented reference state — the fixture's
virtual balances, with `A = 2000` passed in the solver's convention as
`ANN = 2000 * 3^3 * A_MULTIPLIER = 540000000` and a `gamma` inside the
safe range — the effective invariant solver converges to
`868463195704114815205035971`, close to the balance sum; the documented
`849743149250065202008212976` is the fixture's LP token supply, not the
invariant. -/
theorem newton_D_reference_state :
    newton_D 540000000 11809167828997 mainnet3poolVirtualBalances 0
      = .ok 868463195704114815205035971 := rfl

/-- C9 (counterexample). At the documented reference state the solver's
converged invariant differs from the documented reference value
`849743149250065202008212976` by about `1.9 * 10^25`, far beyond the
solver's stated convergence tolerance `diff * 10^14 < max(10^16, D)`. -/
theorem newton_D_reference_state_cex :
    newton_D 540000000 11809167828997 mainnet3poolVirtualBalances 0
      = .ok 868463195704114815205035971 ∧
    (868463195704114815205035971 : ℤ) ≠ 849743149250065202008212976 ∧
    ¬ (pyabs (868463195704114815205035971 - 849743149250065202008212976) * 10 ^ 14
        < pymax (10 ^ 16) 868463195704114815205035971) :=
  ⟨rfl, by decide, by decide⟩

/-- C10. `lp_price` never succeeds: for every input pair it raises the
calculation error (its body is a bare `raise`). -/
theorem lp_price_never_returns (virtual_price price_oracle : ℤ) :
    lp_price virtual_price price_oracle = .error .lpPriceNotSupported := rfl

end Curvesim
